import Mathlib

/-!
Verification of the real-time multiplayer game server core
(`src/server.js`): the player registry, the collectible
spawn/respawn algorithm, and the per-connection event protocol.

The socket event handlers of `server.js` are embedded as pure Lean
functions over an explicit server state.  The modules the server
imports (`utils/players.js`, `public/Collectible.mjs`,
`public/utils/generateStartPos.mjs`, `public/gameConfig.mjs`) and the
external `nanoid` library are not part of the available sources; they
are modelled from the specification, with a doc comment on each such
definition saying so.
-/

namespace MultiGame

/-- A position on the play field, as produced by `generateStartPos`. -/
structure Pos where
  x : Int
  y : Int
deriving DecidableEq

/-- A player record as held by the player registry and as carried by
client payloads: connection id, position and score.  The spec (§3)
also lists a display name and orientation; they are never read by any
claim and are omitted. -/
structure Player where
  id : String
  x : Int
  y : Int
  score : Int
deriving DecidableEq

/-- The collectible item (server.js lines 52–58): position, identity
token (modelled as a natural number drawn from a fresh-token counter,
see `nanoid` note on `ServerState.nextToken`), sprite variant index
and value. -/
structure Collectible where
  x : Int
  y : Int
  id : Nat
  spriteSrcIndex : Nat
  value : Int
deriving DecidableEq

/-- Modelled from the spec: `utils/players.js` is not in the sources.
Per §4.1, `join(playerDraft)` stores a new record under the draft's
connection id, overwriting any existing record with the same id (last
join wins), and returns the canonical stored record. -/
def playerJoin (p : Player) (reg : List Player) : Player × List Player :=
  (p, reg.filter (fun q => q.id != p.id) ++ [p])

/-- Modelled from the spec: per §4.1, `all()` returns a snapshot of
every currently registered player. -/
def getPlayers (reg : List Player) : List Player :=
  reg

/-- Modelled from the spec: per §4.1, `updateState` merges the payload
into the existing record with the payload's connection id and returns
the updated record; when no record exists it fails with `NotFound`,
modelled as `none`, leaving the registry unchanged.  The payload
carries every merged field, so the merge replaces the record. -/
def setPlayerState (p : Player) (reg : List Player) :
    Option Player × List Player :=
  if reg.any (fun q => q.id == p.id) then
    (some p, reg.map (fun q => if q.id == p.id then p else q))
  else
    (none, reg)

/-- Modelled from the spec: per §4.1, `leave(connectionId)` removes
and returns the record; it fails with `NotFound`, modelled as `none`,
if absent. -/
def playerLeave (cid : String) (reg : List Player) :
    Option Player × List Player :=
  match reg.find? (fun q => q.id == cid) with
  | some q => (some q, reg.filter (fun r => r.id != cid))
  | none => (none, reg)

/-- Modelled from the spec: `generateStartPos` (not in the sources)
draws a random position from the valid field.  Its randomness is
modelled as a stream `f` of drawn positions, consumed left to right,
together with the fairness property `fair`: from any index some later
draw differs from any given position.  `fair` is the deterministic
rendering of §4.2's termination assumption that the field is large
enough that the probability of redrawing the excluded position
forever is zero (collision probability < 1). -/
structure Sampler where
  f : Nat → Pos
  fair : ∀ i p, ∃ n, i ≤ n ∧ f n ≠ p

/-- The rejection-sampling loop of the collision handler (server.js
lines 91–99): draw a position, and while it coincides with `exclude`
draw again.  Starting the draws at stream index `i`, the loop stops at
the first index whose draw differs from `exclude`; it exists by `h`. -/
def respawnIdx (f : Nat → Pos) (exclude : Pos) (i : Nat)
    (h : ∃ n, i ≤ n ∧ f n ≠ exclude) : Nat :=
  Nat.find h

/-- The next sprite index (server.js lines 103–106): advance by one,
wrapping to 0 past the last variant. -/
def nextSpriteIndex (spriteCount : Nat) (i : Nat) : Nat :=
  if i = spriteCount - 1 then 0 else i + 1

/-- Modelled from the spec: `Collectible.setState` (in
`public/Collectible.mjs`, not in the sources) merges the given fields
into the collectible (§9, mutation via a stateful setter).  The
collision handler passes exactly `x`, `y`, `id` and `spriteSrcIndex`
(server.js lines 108–113), so `value` is left unchanged. -/
def Collectible.setState (c : Collectible) (x y : Int)
    (tok spriteSrcIndex : Nat) : Collectible :=
  { c with x := x, y := y, id := tok, spriteSrcIndex := spriteSrcIndex }

/-- The server's mutable state: the player registry, the singleton
collectible, the fresh-token counter modelling `nanoid` (each call
returns the counter and increments it; the spec, §4.2, requires each
generated identity token to be distinct from the previous ones), and
the index of the next unconsumed random draw of the sampler. -/
structure ServerState where
  players : List Player
  collectible : Collectible
  nextToken : Nat
  sampleIdx : Nat
deriving DecidableEq

/-- Delivery scope of an outbound message (spec §6). -/
inductive Scope where
  | senderOnly
  | allExceptSender
  | allIncludingSender
deriving DecidableEq

/-- Outbound transport events (spec §6).  `opponentStateChange`
carries an `Option Player` because server.js broadcasts whatever
`setPlayerState` returned, which is undefined for an unknown id. -/
inductive OutMsg where
  | currentOpponents (roster : List Player)
  | collectibleMsg (c : Collectible)
  | newOpponent (p : Player)
  | opponentStateChange (p : Option Player)
  | scored (n : Int)
  | opponentLeave (cid : String)
deriving DecidableEq

/-- One outbound emission: a delivery scope and a message. -/
structure Emit where
  scope : Scope
  msg : OutMsg
deriving DecidableEq

/-- Inbound transport events (spec §6).  The first three carry a
client-supplied player payload; `disconnect` carries the
transport-assigned connection id (`socket.id`). -/
inductive GameEvent where
  | joinGame (p : Player)
  | playerStateChange (p : Player)
  | playerCollideWithCollectible (p : Player)
  | disconnect (cid : String)
deriving DecidableEq

/-- The `joinGame` handler (server.js lines 62–72): emit the current
roster and the collectible to the joining connection, join the
registry, and broadcast the new player record to all others. -/
def joinGameHandler (p : Player) (s : ServerState) :
    ServerState × List Emit :=
  let currentPlayers := getPlayers s.players
  let joined := playerJoin p s.players
  ({ s with players := joined.2 },
   [⟨Scope.senderOnly, OutMsg.currentOpponents currentPlayers⟩,
    ⟨Scope.senderOnly, OutMsg.collectibleMsg s.collectible⟩,
    ⟨Scope.allExceptSender, OutMsg.newOpponent joined.1⟩])

/-- The `playerStateChange` handler (server.js lines 74–78): update
the registry from the payload and broadcast the result to all
others. -/
def playerStateChangeHandler (p : Player) (s : ServerState) :
    ServerState × List Emit :=
  let updated := setPlayerState p s.players
  ({ s with players := updated.2 },
   [⟨Scope.allExceptSender, OutMsg.opponentStateChange updated.1⟩])

/-- The `playerCollideWithCollectible` handler (server.js lines
80–116): add the collectible's value to the payload's score, emit the
new score to the sender, update the registry from the mutated payload
and broadcast the result to all others, then respawn the collectible
(rejection-sampled position excluding the current one, fresh identity
token, next sprite index) and emit it to all clients. -/
def collideHandler (samp : Sampler) (spriteCount : Nat) (p : Player)
    (s : ServerState) : ServerState × List Emit :=
  let newScore := p.score + s.collectible.value
  let updated := setPlayerState { p with score := newScore } s.players
  let exclude : Pos := ⟨s.collectible.x, s.collectible.y⟩
  let idx := respawnIdx samp.f exclude s.sampleIdx
    (samp.fair s.sampleIdx exclude)
  let newPos := samp.f idx
  let newCollectible := s.collectible.setState newPos.x newPos.y
    s.nextToken (nextSpriteIndex spriteCount s.collectible.spriteSrcIndex)
  ({ players := updated.2, collectible := newCollectible,
     nextToken := s.nextToken + 1, sampleIdx := idx + 1 },
   [⟨Scope.senderOnly, OutMsg.scored newScore⟩,
    ⟨Scope.allExceptSender, OutMsg.opponentStateChange updated.1⟩,
    ⟨Scope.allIncludingSender, OutMsg.collectibleMsg newCollectible⟩])

/-- The `disconnect` handler (server.js lines 119–122): remove the
record and broadcast the departed player's id to all others.  The
source reads `player.id` from the result of `playerLeave` without a
check; when the registry has no record for the connection id this is
a fatal TypeError (reading a property of `undefined`), modelled as
`Except.error`. -/
def disconnectHandler (cid : String) (s : ServerState) :
    Except String (ServerState × List Emit) :=
  let left := playerLeave cid s.players
  match left.1 with
  | some q =>
      Except.ok ({ s with players := left.2 },
        [⟨Scope.allExceptSender, OutMsg.opponentLeave q.id⟩])
  | none =>
      Except.error "TypeError: cannot read property id of undefined"

/-- Dispatch of one inbound event (server.js lines 61–123). -/
def step (samp : Sampler) (spriteCount : Nat) (s : ServerState) :
    GameEvent → Except String (ServerState × List Emit)
  | GameEvent.joinGame p => Except.ok (joinGameHandler p s)
  | GameEvent.playerStateChange p =>
      Except.ok (playerStateChangeHandler p s)
  | GameEvent.playerCollideWithCollectible p =>
      Except.ok (collideHandler samp spriteCount p s)
  | GameEvent.disconnect cid => disconnectHandler cid s

/-- Process a sequence of inbound events one at a time to completion
(spec §5, single-threaded dispatch); an uncaught handler error stops
the run. -/
def runEvents (samp : Sampler) (spriteCount : Nat) (s : ServerState) :
    List GameEvent → Except String ServerState
  | [] => Except.ok s
  | e :: es =>
      match step samp spriteCount s e with
      | Except.ok r => runEvents samp spriteCount r.1 es
      | Except.error msg => Except.error msg

/-- The stored score of the registry record with connection id `cid`. -/
def scoreOf (reg : List Player) (cid : String) : Option Int :=
  (reg.find? (fun q => q.id == cid)).map Player.score

/-- The collectible messages among a handler's emissions. -/
def collectibleEmits (out : List Emit) : List Collectible :=
  out.filterMap (fun e =>
    match e.msg with
    | OutMsg.collectibleMsg c => some c
    | _ => none)

/-- The honest-client condition on a payload (spec §9: the core
assumes an honest client): the reported score is non-negative and not
below the stored score of the payload's connection id. -/
def honestPayload (s : ServerState) (p : Player) : Bool :=
  decide (0 ≤ p.score) &&
    s.players.all (fun q => !(q.id == p.id) || decide (q.score ≤ p.score))

/-- The honest-client condition on an inbound event. -/
def honestB (s : ServerState) : GameEvent → Bool
  | GameEvent.joinGame p => honestPayload s p
  | GameEvent.playerStateChange p => honestPayload s p
  | GameEvent.playerCollideWithCollectible p => honestPayload s p
  | GameEvent.disconnect _ => true

/-- A concrete player used to instantiate the theorems. -/
def pA : Player :=
  ⟨"a", 10, 10, 0⟩

/-- A concrete initial collectible: position (5, 5), token 0, sprite
index 2, value 1. -/
def cInit : Collectible :=
  ⟨5, 5, 0, 2, 1⟩

/-- A concrete server state with an empty registry. -/
def sInit : ServerState :=
  ⟨[], cInit, 1, 0⟩

/-- A concrete server state in which player `pA` is registered. -/
def sA : ServerState :=
  ⟨[pA], cInit, 1, 0⟩

/-- A concrete player payload whose connection id is registered
nowhere. -/
def pGhost : Player :=
  ⟨"ghost", 0, 0, 0⟩

/-- A concrete registered record for connection "a" with stored
score 7. -/
def pA7 : Player :=
  ⟨"a", 10, 10, 7⟩

/-- A concrete server state in which connection "a" has stored
score 7. -/
def sB : ServerState :=
  ⟨[pA7], cInit, 1, 0⟩

/-- A concrete payload for connection "a" reporting score -3. -/
def pNeg : Player :=
  ⟨"a", 10, 10, -3⟩

/-- A concrete payload for connection "a" reporting score 5. -/
def pFive : Player :=
  ⟨"a", 10, 10, 5⟩

/-- A concrete sampler used to instantiate the theorems: the n-th draw
is the position (100 + n, 100).  Consecutive draws differ, so the
fairness property holds. -/
def sfun (n : Nat) : Pos :=
  ⟨100 + (n : Int), 100⟩

theorem sfun_fair : ∀ i p, ∃ n, i ≤ n ∧ sfun n ≠ p := by
  intro i p
  by_cases h : sfun i = p
  · refine ⟨i + 1, Nat.le_succ i, ?_⟩
    rw [← h]
    intro hc
    have hx := congrArg Pos.x hc
    simp only [sfun] at hx
    omega
  · exact ⟨i, Nat.le_refl i, h⟩

/-- The concrete sampler. -/
def sampC : Sampler :=
  ⟨sfun, sfun_fair⟩

theorem respawnIdx_le (f : Nat → Pos) (exclude : Pos) (i : Nat)
    (h : ∃ n, i ≤ n ∧ f n ≠ exclude) :
    i ≤ respawnIdx f exclude i h :=
  (Nat.find_spec h).1

theorem respawnIdx_ne (f : Nat → Pos) (exclude : Pos) (i : Nat)
    (h : ∃ n, i ≤ n ∧ f n ≠ exclude) :
    f (respawnIdx f exclude i h) ≠ exclude :=
  (Nat.find_spec h).2

theorem respawnIdx_min (f : Nat → Pos) (exclude : Pos) (i : Nat)
    (h : ∃ n, i ≤ n ∧ f n ≠ exclude) (m : Nat) (him : i ≤ m)
    (hm : m < respawnIdx f exclude i h) : f m = exclude := by
  have := Nat.find_min h hm
  by_contra hc
  exact this ⟨him, hc⟩

theorem respawnIdx_of_ne (f : Nat → Pos) (exclude : Pos) (i : Nat)
    (h : ∃ n, i ≤ n ∧ f n ≠ exclude) (h0 : f i ≠ exclude) :
    respawnIdx f exclude i h = i := by
  unfold respawnIdx
  refine (Nat.find_eq_iff h).mpr ⟨⟨Nat.le_refl i, h0⟩, ?_⟩
  intro m hm hc
  exact absurd hc.1 (Nat.not_le.mpr hm)

/-- Evaluation of the collision handler when the first draw already
differs from the excluded position: the loop stops immediately. -/
theorem collideHandler_eq (samp : Sampler) (spriteCount : Nat)
    (p : Player) (s : ServerState)
    (h0 : samp.f s.sampleIdx ≠ ⟨s.collectible.x, s.collectible.y⟩) :
    collideHandler samp spriteCount p s =
      (⟨(setPlayerState { p with score := p.score + s.collectible.value }
           s.players).2,
        s.collectible.setState (samp.f s.sampleIdx).x
          (samp.f s.sampleIdx).y s.nextToken
          (nextSpriteIndex spriteCount s.collectible.spriteSrcIndex),
        s.nextToken + 1, s.sampleIdx + 1⟩,
       [⟨Scope.senderOnly,
          OutMsg.scored (p.score + s.collectible.value)⟩,
        ⟨Scope.allExceptSender, OutMsg.opponentStateChange
          (setPlayerState { p with score := p.score + s.collectible.value }
            s.players).1⟩,
        ⟨Scope.allIncludingSender, OutMsg.collectibleMsg
          (s.collectible.setState (samp.f s.sampleIdx).x
            (samp.f s.sampleIdx).y s.nextToken
            (nextSpriteIndex spriteCount s.collectible.spriteSrcIndex))⟩]) := by
  unfold collideHandler
  simp only [respawnIdx_of_ne _ _ _ _ h0]

theorem find?_map_update (p : Player) (reg : List Player)
    (h : reg.any (fun q => q.id == p.id) = true) :
    (reg.map (fun q => if q.id == p.id then p else q)).find?
      (fun q => q.id == p.id) = some p := by
  induction reg with
  | nil => simp at h
  | cons a l ih =>
      simp only [List.any_cons, Bool.or_eq_true] at h
      by_cases ha : (a.id == p.id) = true
      · simp only [List.map_cons, if_pos ha]
        exact List.find?_cons_of_pos _ (by simp)
      · simp only [List.map_cons, if_neg ha]
        rw [List.find?_cons_of_neg _ (by simp [ha])]
        exact ih (h.resolve_left ha)

theorem scoreOf_setPlayerState (p : Player) (reg : List Player)
    (h : reg.any (fun q => q.id == p.id) = true) :
    scoreOf (setPlayerState p reg).2 p.id = some p.score := by
  unfold scoreOf setPlayerState
  simp only [h, if_pos]
  rw [find?_map_update p reg h]
  rfl

theorem any_of_scoreOf (reg : List Player) (cid : String) (v : Int)
    (h : scoreOf reg cid = some v) :
    reg.any (fun q => q.id == cid) = true := by
  unfold scoreOf at h
  rcases Option.map_eq_some'.mp h with ⟨q, hq, hv⟩
  refine List.any_eq_true.mpr ⟨q, List.mem_of_find?_eq_some hq, ?_⟩
  simpa using List.find?_some hq

theorem Pos.ne_parts (a b : Pos) (h : a ≠ b) : a.x ≠ b.x ∨ a.y ≠ b.y := by
  by_contra hc
  push_neg at hc
  refine h ?_
  cases a
  cases b
  simp only at hc
  simp [hc.1, hc.2]

theorem nextSpriteIndex_mod (spriteCount i : Nat) (h : i < spriteCount) :
    nextSpriteIndex spriteCount i = (i + 1) % spriteCount := by
  unfold nextSpriteIndex
  split
  · have hi : i + 1 = spriteCount := by omega
    rw [hi, Nat.mod_self]
  · have hi : i + 1 < spriteCount := by omega
    rw [Nat.mod_eq_of_lt hi]

theorem honestPayload_spec (s : ServerState) (p : Player)
    (h : honestPayload s p = true) :
    0 ≤ p.score ∧ ∀ q ∈ s.players, q.id = p.id → q.score ≤ p.score := by
  simp only [honestPayload, Bool.and_eq_true, decide_eq_true_eq,
    List.all_eq_true] at h
  refine ⟨h.1, ?_⟩
  intro q hq hid
  have hb := h.2 q hq
  simp only [hid, beq_self_eq_true, Bool.not_true, Bool.false_or,
    decide_eq_true_eq] at hb
  exact hb

theorem mem_id_inj (reg : List Player)
    (hdup : (reg.map Player.id).Nodup) (q r : Player) (hq : q ∈ reg)
    (hr : r ∈ reg) (hid : q.id = r.id) : q = r :=
  List.inj_on_of_nodup_map hdup hq hr hid

theorem setPlayerState_scores (p : Player) (reg : List Player)
    (hp : 0 ≤ p.score)
    (hmono : ∀ q ∈ reg, q.id = p.id → q.score ≤ p.score)
    (hdup : (reg.map Player.id).Nodup)
    (hnonneg : ∀ q ∈ reg, 0 ≤ q.score) :
    (∀ r ∈ (setPlayerState p reg).2, 0 ≤ r.score) ∧
    ∀ q ∈ reg, ∀ r ∈ (setPlayerState p reg).2, q.id = r.id →
      q.score ≤ r.score := by
  unfold setPlayerState
  by_cases hany : reg.any (fun q => q.id == p.id) = true
  · simp only [hany, if_pos]
    constructor
    · intro r hr
      rcases List.mem_map.mp hr with ⟨q, hq, hrq⟩
      by_cases hqid : (q.id == p.id) = true
      · rw [if_pos hqid] at hrq
        exact hrq ▸ hp
      · rw [if_neg hqid] at hrq
        exact hrq ▸ hnonneg q hq
    · intro q hq r hr hid
      rcases List.mem_map.mp hr with ⟨q2, hq2, hrq⟩
      by_cases hq2id : (q2.id == p.id) = true
      · rw [if_pos hq2id] at hrq
        subst hrq
        exact hmono q hq hid
      · rw [if_neg hq2id] at hrq
        subst hrq
        rw [mem_id_inj reg hdup q q2 hq hq2 hid]
  · simp only [Bool.not_eq_true] at hany
    simp only [hany, Bool.false_eq_true, if_neg, if_false]
    refine ⟨hnonneg, ?_⟩
    intro q hq r hr hid
    rw [mem_id_inj reg hdup q r hq hr hid]

theorem playerJoin_scores (p : Player) (reg : List Player)
    (hp : 0 ≤ p.score)
    (hmono : ∀ q ∈ reg, q.id = p.id → q.score ≤ p.score)
    (hdup : (reg.map Player.id).Nodup)
    (hnonneg : ∀ q ∈ reg, 0 ≤ q.score) :
    (∀ r ∈ (playerJoin p reg).2, 0 ≤ r.score) ∧
    ∀ q ∈ reg, ∀ r ∈ (playerJoin p reg).2, q.id = r.id →
      q.score ≤ r.score := by
  unfold playerJoin
  constructor
  · intro r hr
    rcases List.mem_append.mp hr with hr | hr
    · exact hnonneg r (List.mem_of_mem_filter hr)
    · rcases List.mem_singleton.mp hr with rfl
      exact hp
  · intro q hq r hr hid
    rcases List.mem_append.mp hr with hr | hr
    · exact le_of_eq (congrArg Player.score
        (mem_id_inj reg hdup q r hq (List.mem_of_mem_filter hr) hid))
    · rcases List.mem_singleton.mp hr with rfl
      exact hmono q hq hid

/-- C4 (confirmed): for every respawn triggered by a
playerCollideWithCollectible event, the collectible's position after
the respawn differs from the position before it in at least one of
the x or y coordinates, and never equals it in both. -/
theorem C4_respawn_position_ne (samp : Sampler) (spriteCount : Nat)
    (p : Player) (s : ServerState) :
    ((collideHandler samp spriteCount p s).1.collectible.x ≠
        s.collectible.x ∨
      (collideHandler samp spriteCount p s).1.collectible.y ≠
        s.collectible.y) ∧
    ¬((collideHandler samp spriteCount p s).1.collectible.x =
        s.collectible.x ∧
      (collideHandler samp spriteCount p s).1.collectible.y =
        s.collectible.y) := by
  have hne := respawnIdx_ne samp.f ⟨s.collectible.x, s.collectible.y⟩
    s.sampleIdx (samp.fair s.sampleIdx ⟨s.collectible.x, s.collectible.y⟩)
  rcases Pos.ne_parts _ _ hne with h | h
  · exact ⟨Or.inl h, fun hc => h hc.1⟩
  · exact ⟨Or.inr h, fun hc => h hc.2⟩

/-- C5 (confirmed): under the precondition that some draw of the
sampler from the current index onwards differs from the excluded
position — the deterministic rendering of the assumption that the
valid field holds a position different from the collectible's current
one, so the collision probability is < 1 — the rejection-sampling
loop terminates: it stops at a well-defined index no earlier than the
start, whose draw differs from the excluded position, every draw
before it having been rejected as equal to it. -/
theorem C5_rejection_loop_terminates (f : Nat → Pos) (exclude : Pos)
    (i : Nat) (h : ∃ n, i ≤ n ∧ f n ≠ exclude) :
    i ≤ respawnIdx f exclude i h ∧
    f (respawnIdx f exclude i h) ≠ exclude ∧
    ∀ m, i ≤ m → m < respawnIdx f exclude i h → f m = exclude :=
  ⟨respawnIdx_le f exclude i h, respawnIdx_ne f exclude i h,
   fun m him hm => respawnIdx_min f exclude i h m him hm⟩

/-- Witness for C5 at the concrete sampler, excluded position (5, 5)
and start index 0. -/
theorem C5_witness :
    0 ≤ respawnIdx sfun ⟨5, 5⟩ 0 ⟨0, Nat.le_refl 0, by decide⟩ ∧
    sfun (respawnIdx sfun ⟨5, 5⟩ 0 ⟨0, Nat.le_refl 0, by decide⟩) ≠
      ⟨5, 5⟩ :=
  ⟨(C5_rejection_loop_terminates sfun ⟨5, 5⟩ 0
      ⟨0, Nat.le_refl 0, by decide⟩).1,
   (C5_rejection_loop_terminates sfun ⟨5, 5⟩ 0
      ⟨0, Nat.le_refl 0, by decide⟩).2.1⟩

/-- C8 (code_bug): a disconnect for a registered connection completes
and broadcasts the departed player's id, but a disconnect for a
connection id with no registry record — any connection that never
sent joinGame — makes the handler read the id property of the
undefined result of playerLeave, a fatal TypeError rather than the
silent drop the specification requires for NotFound. -/
theorem C8_disconnect_unknown_fatal :
    (∃ r, disconnectHandler "a" sA = Except.ok r) ∧
    disconnectHandler "ghost" sInit =
      Except.error "TypeError: cannot read property id of undefined" :=
  ⟨⟨_, rfl⟩, rfl⟩

/-- C1 (corrected): for a playerCollideWithCollectible event whose
connection id has a record in the registry, provided the payload
reports a score equal to that record's stored score, processing
leaves the stored score equal to the reported score plus the
collectible's value — an increase by exactly the value — and emits
exactly one collectible broadcast, whose identity token differs from
the collectible's token before the event (tokens being fresh: the
token counter exceeds the current collectible's token). -/
theorem C1_collide_score_and_fresh_token (samp : Sampler)
    (spriteCount : Nat) (p : Player) (s : ServerState)
    (hreg : scoreOf s.players p.id = some p.score)
    (htok : s.collectible.id < s.nextToken) :
    scoreOf (collideHandler samp spriteCount p s).1.players p.id =
      some (p.score + s.collectible.value) ∧
    ∃ c, collectibleEmits (collideHandler samp spriteCount p s).2 = [c] ∧
      c.id ≠ s.collectible.id := by
  have hany := any_of_scoreOf s.players p.id p.score hreg
  constructor
  · have h1 : (collideHandler samp spriteCount p s).1.players =
        (setPlayerState { p with score := p.score + s.collectible.value }
          s.players).2 := rfl
    rw [h1]
    exact scoreOf_setPlayerState
      { p with score := p.score + s.collectible.value } s.players hany
  · refine ⟨_, rfl, ?_⟩
    show s.nextToken ≠ s.collectible.id
    omega

/-- Witness for C1 at the concrete state with registered player
`pA` and an honest payload. -/
theorem C1_witness :
    scoreOf (collideHandler sampC 4 pA sA).1.players pA.id =
      some (pA.score + sA.collectible.value) :=
  (C1_collide_score_and_fresh_token sampC 4 pA sA (by decide)
    (by decide)).1

/-- Counterexample for C1 as frozen: connection "a" has stored score
7 and the collectible value is 1, but a collide payload reporting
score 0 leaves the stored score at 1, not at 7 + 1 — the handler adds
the value to the client-reported score, not to the stored one. -/
theorem C1_counterexample :
    scoreOf sB.players pA.id = some 7 ∧
    sB.collectible.value = 1 ∧
    scoreOf (collideHandler sampC 4 pA sB).1.players pA.id = some 1 ∧
    scoreOf (collideHandler sampC 4 pA sB).1.players pA.id ≠
      some (7 + sB.collectible.value) := by
  have h3 : scoreOf (collideHandler sampC 4 pA sB).1.players pA.id =
      some 1 := rfl
  refine ⟨rfl, rfl, h3, ?_⟩
  rw [h3]
  decide

/-- C2 (corrected): an updateState or collide event for an unknown
connection id leaves the player registry unchanged, but broadcasts
are still emitted: playerStateChange broadcasts one
opponentStateChange carrying the empty update result, and
playerCollideWithCollectible emits a scored message to the sender, an
opponentStateChange broadcast, and one collectible broadcast to all
clients. -/
theorem C2_unknown_id_keeps_registry_but_broadcasts (samp : Sampler)
    (spriteCount : Nat) (p : Player) (s : ServerState)
    (h : s.players.any (fun q => q.id == p.id) = false) :
    (playerStateChangeHandler p s).1.players = s.players ∧
    (playerStateChangeHandler p s).2 =
      [⟨Scope.allExceptSender, OutMsg.opponentStateChange none⟩] ∧
    (collideHandler samp spriteCount p s).1.players = s.players ∧
    (collideHandler samp spriteCount p s).2 =
      [⟨Scope.senderOnly, OutMsg.scored (p.score + s.collectible.value)⟩,
       ⟨Scope.allExceptSender, OutMsg.opponentStateChange none⟩,
       ⟨Scope.allIncludingSender, OutMsg.collectibleMsg
          (collideHandler samp spriteCount p s).1.collectible⟩] := by
  have hset : setPlayerState p s.players = (none, s.players) := by
    unfold setPlayerState
    simp [h]
  have hset2 : setPlayerState
      { p with score := p.score + s.collectible.value } s.players =
      (none, s.players) := by
    unfold setPlayerState
    simp only [show ∀ q : Player, (q.id ==
      ({ p with score := p.score + s.collectible.value } : Player).id) =
      (q.id == p.id) from fun q => rfl]
    simp [h]
  refine ⟨?_, ?_, ?_, ?_⟩
  · have h1 : (playerStateChangeHandler p s).1.players =
        (setPlayerState p s.players).2 := rfl
    rw [h1, hset]
  · have h1 : (playerStateChangeHandler p s).2 =
        [⟨Scope.allExceptSender,
          OutMsg.opponentStateChange (setPlayerState p s.players).1⟩] := rfl
    rw [h1, hset]
  · have h1 : (collideHandler samp spriteCount p s).1.players =
        (setPlayerState { p with score := p.score + s.collectible.value }
          s.players).2 := rfl
    rw [h1, hset2]
  · have h1 : (collideHandler samp spriteCount p s).2 =
        [⟨Scope.senderOnly, OutMsg.scored (p.score + s.collectible.value)⟩,
         ⟨Scope.allExceptSender, OutMsg.opponentStateChange
            (setPlayerState
              { p with score := p.score + s.collectible.value }
              s.players).1⟩,
         ⟨Scope.allIncludingSender, OutMsg.collectibleMsg
            (collideHandler samp spriteCount p s).1.collectible⟩] := rfl
    rw [h1, hset2]

/-- Witness for C2 at the empty registry and the unregistered payload
`pGhost`. -/
theorem C2_witness :
    (playerStateChangeHandler pGhost sInit).1.players =
      sInit.players ∧
    (playerStateChangeHandler pGhost sInit).2 =
      [⟨Scope.allExceptSender, OutMsg.opponentStateChange none⟩] :=
  ⟨(C2_unknown_id_keeps_registry_but_broadcasts sampC 4 pGhost sInit
      (by decide)).1,
   (C2_unknown_id_keeps_registry_but_broadcasts sampC 4 pGhost sInit
      (by decide)).2.1⟩

/-- Counterexample for C2 as frozen: a playerStateChange event for the
unregistered connection id "ghost" leaves the registry unchanged but
does emit a broadcast — one opponentStateChange to all other
connections — contradicting "emits no broadcast to any connection". -/
theorem C2_counterexample :
    sInit.players.any (fun q => q.id == pGhost.id) = false ∧
    (playerStateChangeHandler pGhost sInit).1.players = sInit.players ∧
    (playerStateChangeHandler pGhost sInit).2 =
      [⟨Scope.allExceptSender, OutMsg.opponentStateChange none⟩] ∧
    (playerStateChangeHandler pGhost sInit).2 ≠ [] := by
  decide

/-- C3 (confirmed): a joinGame event emits to the joining connection
exactly one currentOpponents message carrying the roster read before
the join — which excludes the joining player, the connection id being
new — and exactly one collectible message; all other connections
receive exactly one newOpponent message carrying the new player's
record and no currentOpponents message; the registry afterwards is
the old roster extended by the new record. -/
theorem C3_join_emissions (p : Player) (s : ServerState)
    (hnew : s.players.any (fun q => q.id == p.id) = false) :
    (joinGameHandler p s).2 =
      [⟨Scope.senderOnly, OutMsg.currentOpponents (getPlayers s.players)⟩,
       ⟨Scope.senderOnly, OutMsg.collectibleMsg s.collectible⟩,
       ⟨Scope.allExceptSender, OutMsg.newOpponent p⟩] ∧
    (∀ q ∈ getPlayers s.players, q.id ≠ p.id) ∧
    (joinGameHandler p s).1.players = s.players ++ [p] := by
  refine ⟨rfl, ?_, ?_⟩
  · intro q hq hid
    have hh : s.players.any (fun r => r.id == p.id) = true :=
      List.any_eq_true.mpr ⟨q, hq, by simp [hid]⟩
    rw [hnew] at hh
    exact Bool.false_ne_true hh
  · have h1 : (joinGameHandler p s).1.players =
        s.players.filter (fun q => q.id != p.id) ++ [p] := rfl
    rw [h1]
    congr 1
    refine List.filter_eq_self.mpr ?_
    intro q hq
    have hqn : ¬((q.id == p.id) = true) := by
      intro hc
      have hh : s.players.any (fun r => r.id == p.id) = true :=
        List.any_eq_true.mpr ⟨q, hq, hc⟩
      rw [hnew] at hh
      exact Bool.false_ne_true hh
    have hqn2 : q.id ≠ p.id := fun hc => hqn (by simp [hc])
    simp [hqn2]

/-- Witness for C3 at the empty registry and the joining player
`pA`. -/
theorem C3_witness :
    (joinGameHandler pA sInit).2 =
      [⟨Scope.senderOnly,
         OutMsg.currentOpponents (getPlayers sInit.players)⟩,
       ⟨Scope.senderOnly, OutMsg.collectibleMsg sInit.collectible⟩,
       ⟨Scope.allExceptSender, OutMsg.newOpponent pA⟩] ∧
    (joinGameHandler pA sInit).1.players = sInit.players ++ [pA] :=
  ⟨(C3_join_emissions pA sInit (by decide)).1,
   (C3_join_emissions pA sInit (by decide)).2.2⟩

theorem collide_run_cons (samp : Sampler) (spriteCount : Nat)
    (p : Player) (s : ServerState) (es : List GameEvent) :
    runEvents samp spriteCount s
      (GameEvent.playerCollideWithCollectible p :: es) =
    runEvents samp spriteCount (collideHandler samp spriteCount p s).1 es :=
  rfl

/-- C6 (confirmed): if the collectible's sprite index is below the
sprite count, then after N collision-triggered respawns the sprite
index equals (initialIndex + N) mod spriteCount: each respawn
advances it by one, wrapping to 0 past the last variant, and never
re-randomizes it. -/
theorem C6_sprite_index_cycles (samp : Sampler) (spriteCount : Nat)
    (p : Player) (s : ServerState) (N : Nat)
    (hinit : s.collectible.spriteSrcIndex < spriteCount) :
    ∃ s2, runEvents samp spriteCount s
        (List.replicate N (GameEvent.playerCollideWithCollectible p)) =
          Except.ok s2 ∧
      s2.collectible.spriteSrcIndex =
        (s.collectible.spriteSrcIndex + N) % spriteCount := by
  induction N generalizing s with
  | zero =>
      exact ⟨s, rfl, by rw [Nat.add_zero, Nat.mod_eq_of_lt hinit]⟩
  | succ n ih =>
      have hpos : 0 < spriteCount :=
        lt_of_le_of_lt (Nat.zero_le _) hinit
      have hstep : (collideHandler samp spriteCount p s).1.collectible.spriteSrcIndex =
          nextSpriteIndex spriteCount s.collectible.spriteSrcIndex := rfl
      have hlt : (collideHandler samp spriteCount p s).1.collectible.spriteSrcIndex <
          spriteCount := by
        rw [hstep, nextSpriteIndex_mod _ _ hinit]
        exact Nat.mod_lt _ hpos
      rcases ih (collideHandler samp spriteCount p s).1 hlt with
        ⟨s2, hrun, hsprite⟩
      refine ⟨s2, ?_, ?_⟩
      · rw [List.replicate_succ]
        exact (collide_run_cons samp spriteCount p s _).trans hrun
      · rw [hsprite, hstep, nextSpriteIndex_mod _ _ hinit, Nat.mod_add_mod]
        congr 1
        omega

/-- Witness for C6 at the concrete initial state (sprite index 2 of
4) and five collision events: the final index is (2 + 5) mod 4. -/
theorem C6_witness :
    ∃ s2, runEvents sampC 4 sInit
        (List.replicate 5 (GameEvent.playerCollideWithCollectible pA)) =
          Except.ok s2 ∧
      s2.collectible.spriteSrcIndex =
        (sInit.collectible.spriteSrcIndex + 5) % 4 :=
  C6_sprite_index_cycles sampC 4 pA sInit 5 (by decide)

/-- C7 (corrected): under the honest-client condition — each
registry-mutating payload reports a non-negative score no smaller
than the stored score of its connection id — and a non-negative
collectible value, one dispatch step keeps every stored score
non-negative and never decreases the stored score of any connection
that survives the step.  Without that condition the claim fails, the
handlers storing whatever score the client reports. -/
theorem C7_honest_scores (samp : Sampler) (spriteCount : Nat)
    (s : ServerState) (e : GameEvent) (s2 : ServerState)
    (out : List Emit)
    (hstep : step samp spriteCount s e = Except.ok (s2, out))
    (hhonest : honestB s e = true)
    (hval : 0 ≤ s.collectible.value)
    (hdup : (s.players.map Player.id).Nodup)
    (hnonneg : ∀ q ∈ s.players, 0 ≤ q.score) :
    (∀ q ∈ s2.players, 0 ≤ q.score) ∧
    ∀ q ∈ s.players, ∀ r ∈ s2.players, q.id = r.id →
      q.score ≤ r.score := by
  cases e with
  | joinGame p =>
      have hp := honestPayload_spec s p hhonest
      have h2 : Except.ok (joinGameHandler p s) =
          (Except.ok (s2, out) : Except String (ServerState × List Emit)) :=
        hstep
      injection h2 with h3
      have hs2 : s2 = (joinGameHandler p s).1 := by rw [h3]
      subst hs2
      exact playerJoin_scores p s.players hp.1 hp.2 hdup hnonneg
  | playerStateChange p =>
      have hp := honestPayload_spec s p hhonest
      have h2 : Except.ok (playerStateChangeHandler p s) =
          (Except.ok (s2, out) : Except String (ServerState × List Emit)) :=
        hstep
      injection h2 with h3
      have hs2 : s2 = (playerStateChangeHandler p s).1 := by rw [h3]
      subst hs2
      exact setPlayerState_scores p s.players hp.1 hp.2 hdup hnonneg
  | playerCollideWithCollectible p =>
      have hp := honestPayload_spec s p hhonest
      have hp1 : 0 ≤ ({ p with score := p.score + s.collectible.value } :
          Player).score :=
        add_nonneg hp.1 hval
      have hmono2 : ∀ q ∈ s.players,
          q.id = ({ p with score := p.score + s.collectible.value } :
            Player).id →
          q.score ≤ ({ p with score := p.score + s.collectible.value } :
            Player).score := by
        intro q hq hid
        exact le_trans (hp.2 q hq hid) (le_add_of_nonneg_right hval)
      have h2 : Except.ok (collideHandler samp spriteCount p s) =
          (Except.ok (s2, out) : Except String (ServerState × List Emit)) :=
        hstep
      injection h2 with h3
      have hs2 : s2 = (collideHandler samp spriteCount p s).1 := by
        rw [h3]
      subst hs2
      exact setPlayerState_scores
        { p with score := p.score + s.collectible.value } s.players
        hp1 hmono2 hdup hnonneg
  | disconnect cid =>
      cases hfind : s.players.find? (fun q => q.id == cid) with
      | none =>
          have h2 : step samp spriteCount s (GameEvent.disconnect cid) =
              Except.error
                "TypeError: cannot read property id of undefined" := by
            simp only [step, disconnectHandler, playerLeave, hfind]
          rw [h2] at hstep
          exact Except.noConfusion hstep
      | some q0 =>
          have h2 : step samp spriteCount s (GameEvent.disconnect cid) =
              Except.ok
                ({ s with players :=
                    s.players.filter (fun r => r.id != cid) },
                 [⟨Scope.allExceptSender, OutMsg.opponentLeave q0.id⟩]) := by
            simp only [step, disconnectHandler, playerLeave, hfind]
          rw [h2] at hstep
          injection hstep with h3
          injection h3 with h4 h5
          subst h4
          constructor
          · intro r hr
            exact hnonneg r (List.mem_of_mem_filter hr)
          · intro q hq r hr hid
            exact le_of_eq (congrArg Player.score
              (mem_id_inj s.players hdup q r hq
                (List.mem_of_mem_filter hr) hid))

/-- Witness for C7: one honest playerStateChange step for the
registered player raises the stored score from 0 to 5, so the new
stored score of record pFive is non-negative. -/
theorem C7_witness : (0 : Int) ≤ pFive.score :=
  (C7_honest_scores sampC 4 sA (GameEvent.playerStateChange pFive)
      ⟨[pFive], cInit, 1, 0⟩
      [⟨Scope.allExceptSender, OutMsg.opponentStateChange (some pFive)⟩]
      rfl (by decide) (by decide) (by decide) (by decide)).1
    pFive (List.mem_singleton.mpr rfl)

/-- Counterexample for C7 as frozen: player "a" joins with score 0,
then a playerStateChange payload reporting score -3 is stored as is —
the stored score becomes negative and decreases, so the claim fails
for arbitrary client-supplied payloads. -/
theorem C7_counterexample :
    (runEvents sampC 4 sInit
        [GameEvent.joinGame pA, GameEvent.playerStateChange pNeg]).map
      (fun s2 => scoreOf s2.players "a") = Except.ok (some (-3)) ∧
    ¬((0 : Int) ≤ -3) := by
  refine ⟨rfl, by decide⟩

/-- C10 (confirmed): the setState transition of the collision handler
replaces only the position, the identity token and the sprite index,
so over every sequence of inbound events processed to completion the
collectible's value stays equal to its value at the start. -/
theorem C10_value_constant (samp : Sampler) (spriteCount : Nat)
    (evs : List GameEvent) (s s2 : ServerState)
    (h : runEvents samp spriteCount s evs = Except.ok s2) :
    s2.collectible.value = s.collectible.value := by
  induction evs generalizing s with
  | nil =>
      have h2 : Except.ok s = (Except.ok s2 : Except String ServerState) :=
        h
      injection h2 with h3
      rw [h3]
  | cons e es ih =>
      cases e with
      | joinGame p =>
          have h2 : runEvents samp spriteCount (joinGameHandler p s).1 es =
              Except.ok s2 := h
          exact ih (joinGameHandler p s).1 h2
      | playerStateChange p =>
          have h2 : runEvents samp spriteCount
              (playerStateChangeHandler p s).1 es = Except.ok s2 := h
          exact ih (playerStateChangeHandler p s).1 h2
      | playerCollideWithCollectible p =>
          have h2 : runEvents samp spriteCount
              (collideHandler samp spriteCount p s).1 es = Except.ok s2 := h
          exact ih (collideHandler samp spriteCount p s).1 h2
      | disconnect cid =>
          cases hfind : s.players.find? (fun q => q.id == cid) with
          | none =>
              have h2 : runEvents samp spriteCount s
                  (GameEvent.disconnect cid :: es) =
                  Except.error
                    "TypeError: cannot read property id of undefined" := by
                simp only [runEvents, step, disconnectHandler, playerLeave,
                  hfind]
              rw [h2] at h
              exact Except.noConfusion h
          | some q0 =>
              have h2 : runEvents samp spriteCount s
                  (GameEvent.disconnect cid :: es) =
                  runEvents samp spriteCount
                    { s with players :=
                        s.players.filter (fun r => r.id != cid) } es := by
                simp only [runEvents, step, disconnectHandler, playerLeave,
                  hfind]
              rw [h2] at h
              exact ih { s with players :=
                s.players.filter (fun r => r.id != cid) } h

/-- Witness for C10: a run of one join event keeps the collectible's
value. -/
theorem C10_witness :
    sA.collectible.value = sInit.collectible.value :=
  C10_value_constant sampC 4 [GameEvent.joinGame pA] sInit sA rfl

/-- C9 (confirmed): the collision handler delivers the scored message
to the sender only, the opponentStateChange message to all
connections except the sender, and the collectible message to all
connections including the sender — and nothing else. -/
theorem C9_collide_broadcast_scopes (samp : Sampler) (spriteCount : Nat)
    (p : Player) (s : ServerState) :
    ∃ sc up c,
      (collideHandler samp spriteCount p s).2 =
        [⟨Scope.senderOnly, OutMsg.scored sc⟩,
         ⟨Scope.allExceptSender, OutMsg.opponentStateChange up⟩,
         ⟨Scope.allIncludingSender, OutMsg.collectibleMsg c⟩] :=
  ⟨_, _, _, rfl⟩

end MultiGame
